import Mathlib

/-!
The task-callback bridge of radix_engine_toolkit_uniffi.c

The C file holds one function,

    void cgo_rust_task_callback_bridge_radix_engine_toolkit_uniffi(
        RustTaskCallback cb, const void * taskData, int8_t status) {
      cb(taskData, status);
    }

It is embedded below as a Lean function that is generic in the effect `m` of the code
behind the function pointer `cb`: a call of C code is a computation in `m`, and the body of
the bridge is the single call `cb taskData status`.  The properties are then stated at
concrete effects: state passing (`StateM`), and state passing with faults
(`StateT σ (Except ε)`).
-/

namespace RadixEngineToolkitUniffi

/-! ## Data model -/

/-- The C type `int8_t` of `<stdint.h>`: the integers from -128 to 127. -/
abbrev int8_t : Type := { v : Int // -128 ≤ v ∧ v ≤ 127 }

/-- The C type `const void *` of the parameter `taskData`: an address.  The bridge has no
operation that reads through it, so the address is all the model keeps. -/
abbrev VoidPtr : Type := Nat

/-- Modelled from the spec: the typedef `RustTaskCallback` lives in the header
`radix_engine_toolkit_uniffi.h`, which is not among the sources.  The spec gives its
signature: it accepts an opaque task token and a signed 8-bit status and returns nothing.
The effect of the code behind the pointer is the parameter `m`. -/
abbrev RustTaskCallback (m : Type → Type) : Type := VoidPtr → int8_t → m Unit

/-! ## The bridge -/

/-- The bridge function of `radix_engine_toolkit_uniffi.c`, lines 6 to 8: its body is the one
statement `cb(taskData, status);`. -/
def cgo_rust_task_callback_bridge_radix_engine_toolkit_uniffi {m : Type → Type}
    (cb : RustTaskCallback m) (taskData : VoidPtr) (status : int8_t) : m Unit :=
  cb taskData status

/-! ## Observers used to state the properties -/

/-- A log of the argument pairs a callback was invoked with, oldest first. -/
abbrev Log : Type := List (VoidPtr × int8_t)

/-- The callback of the spec's example scenario: it appends its arguments to a log and does
nothing else. -/
def recordCallback : RustTaskCallback (StateM Log) :=
  fun taskData status log => ((), log ++ [(taskData, status)])

/-- Call tracing for an arbitrary callback `cb` over a world `W`: the traced callback
appends the arguments it was invoked with to a log that `cb` cannot reach, and acts on the
world exactly as `cb` does. -/
def traced {W : Type} (cb : RustTaskCallback (StateM W)) :
    RustTaskCallback (StateM (W × Log)) :=
  fun taskData status st =>
    ((), ((cb taskData status).run st.1).2, st.2 ++ [(taskData, status)])

/-- A caller that forwards a sequence of (token, status) pairs through the bridge, one call
after another, in list order. -/
def forwardAll {m : Type → Type} [Monad m] (cb : RustTaskCallback m) :
    List (VoidPtr × int8_t) → m Unit
  | [] => pure ()
  | call :: rest => do
      cgo_rust_task_callback_bridge_radix_engine_toolkit_uniffi cb call.1 call.2
      forwardAll cb rest

/-- A caller that invokes the bridge twice in succession with the same triple. -/
def forwardTwice {m : Type → Type} [Monad m] (cb : RustTaskCallback m)
    (taskData : VoidPtr) (status : int8_t) : m Unit := do
  cgo_rust_task_callback_bridge_radix_engine_toolkit_uniffi cb taskData status
  cgo_rust_task_callback_bridge_radix_engine_toolkit_uniffi cb taskData status

/-- The state of the reentrancy scenario: the world the callbacks act on, and one call log
for the outer callback and one for the inner callback. -/
structure NestedState (W : Type) where
  world : W
  outerLog : Log
  innerLog : Log

/-- Call tracing for the inner callback `cb2` of the reentrancy scenario: it appends its
arguments to the inner log and acts on the world as `cb2` does. -/
def tracedInner {W : Type} (cb2 : RustTaskCallback (StateM W)) :
    RustTaskCallback (StateM (NestedState W)) :=
  fun taskData status st =>
    ((), { st with
            world := ((cb2 taskData status).run st.world).2
            innerLog := st.innerLog ++ [(taskData, status)] })

/-- An outer callback that re-enters the bridge.  When invoked it appends its own arguments
to the outer log, acts on the world as `before` does, calls the bridge with
`(cb2, taskData2, status2)`, and then acts on the world as `after` does, still with its own
arguments. -/
def reentrantCallback {W : Type} (before after : RustTaskCallback (StateM W))
    (cb2 : RustTaskCallback (StateM (NestedState W))) (taskData2 : VoidPtr)
    (status2 : int8_t) : RustTaskCallback (StateM (NestedState W)) :=
  fun taskData status => do
    modify fun st => { st with outerLog := st.outerLog ++ [(taskData, status)] }
    modify fun st => { st with world := ((before taskData status).run st.world).2 }
    cgo_rust_task_callback_bridge_radix_engine_toolkit_uniffi cb2 taskData2 status2
    modify fun st => { st with world := ((after taskData status).run st.world).2 }

/-- A callback whose effect ignores the task token: it adds the status to a counter. -/
def statusCounter : RustTaskCallback (StateM Int) :=
  fun _ status total => ((), total + status.val)

/-- A callback that can fail: it faults with the status as the error when the token is the
null address or the status is negative, and otherwise stores the token. -/
def rejectingCallback : RustTaskCallback (StateT VoidPtr (Except Int)) :=
  fun taskData status _ =>
    if taskData = 0 ∨ status.val < 0 then Except.error status.val
    else Except.ok ((), taskData)

/-! ## Properties -/

/-- C1: for every callback cb (traced, over any world W), every task token and every signed
8-bit status, one call of the bridge from any state invokes cb exactly once with exactly the
token and status the bridge was given: the call log grows by the single entry
(taskData, status) and nothing else, so its length grows by one, and the world is the one cb
leaves for these same arguments. -/
theorem bridge_invokes_callback_once {W : Type} (cb : RustTaskCallback (StateM W))
    (taskData : VoidPtr) (status : int8_t) (w : W) (log : Log) :
    (cgo_rust_task_callback_bridge_radix_engine_toolkit_uniffi (traced cb)
        taskData status).run (w, log)
      = ((), ((cb taskData status).run w).2, log ++ [(taskData, status)])
    ∧ ((cgo_rust_task_callback_bridge_radix_engine_toolkit_uniffi (traced cb)
        taskData status).run (w, log)).2.2.length = log.length + 1 := by
  refine ⟨rfl, ?_⟩
  simp [cgo_rust_task_callback_bridge_radix_engine_toolkit_uniffi, traced, StateT.run]

/-- C2: for every callback cb that is a state transformer over a world W, every token, status
and initial state w, the bridge returns in exactly the state that cb leaves when run from w
with the same token and status: the effect of cb is complete at the return and the bridge
adds no effect of its own. -/
theorem bridge_state_is_callback_state {W : Type} (cb : RustTaskCallback (StateM W))
    (taskData : VoidPtr) (status : int8_t) (w : W) :
    (cgo_rust_task_callback_bridge_radix_engine_toolkit_uniffi cb taskData status).run w
      = (cb taskData status).run w :=
  rfl

/-- C3: forwarding any finite sequence of (token, status) pairs through the bridge, one call
after another, to the recording callback appends exactly that sequence to the log, in call
order and one entry per call, and leaves every earlier entry as it was.  From the empty log
the final log is the sequence itself; forward(cb, 0x1234, 0) alone leaves [(0x1234, 0)], and
followed by forward(cb, 0x5678, -1) it leaves [(0x1234, 0), (0x5678, -1)]. -/
theorem forwardAll_log_is_call_sequence :
    (∀ (calls : List (VoidPtr × int8_t)) (log : Log),
        (forwardAll recordCallback calls).run log = ((), log ++ calls))
    ∧ (∀ calls : List (VoidPtr × int8_t),
        ((forwardAll recordCallback calls).run []).2 = calls)
    ∧ ((cgo_rust_task_callback_bridge_radix_engine_toolkit_uniffi recordCallback
          0x1234 ⟨0, by decide⟩).run []).2 = [(0x1234, ⟨0, by decide⟩)]
    ∧ ((forwardAll recordCallback
          [(0x1234, ⟨0, by decide⟩), (0x5678, ⟨-1, by decide⟩)]).run []).2
        = [(0x1234, ⟨0, by decide⟩), (0x5678, ⟨-1, by decide⟩)] := by
  have step : ∀ (calls : List (VoidPtr × int8_t)) (log : Log),
      (forwardAll recordCallback calls).run log = ((), log ++ calls) := by
    intro calls
    induction calls with
    | nil => intro log; simp [forwardAll, StateT.run, pure, StateT.pure]
    | cons call rest ih =>
      intro log
      have h := ih (log ++ [call])
      simp only [StateT.run] at h ⊢
      simp [forwardAll, bind, StateT.bind,
        cgo_rust_task_callback_bridge_radix_engine_toolkit_uniffi, recordCallback, h]
  refine ⟨step, ?_, rfl, rfl⟩
  intro calls
  rw [step]
  simp

/-- C4: the bridge has no error path of its own and validates nothing.  For every callback
cb that may fail, every token, every status and every initial state, the outcome of the
bridge is the outcome of cb for the same arguments, so it is an error exactly when cb gives
an error, and then the same error.  At the null token and at the statuses -128 and 127 a
callback that accepts them is reached and succeeds; a callback that rejects them gives its
own error through the bridge. -/
theorem bridge_outcome_is_callback_outcome :
    (∀ (σ ε : Type) (cb : RustTaskCallback (StateT σ (Except ε))) (taskData : VoidPtr)
        (status : int8_t) (w : σ),
        (cgo_rust_task_callback_bridge_radix_engine_toolkit_uniffi cb taskData status).run w
            = (cb taskData status).run w
        ∧ ∀ e : ε,
            (cgo_rust_task_callback_bridge_radix_engine_toolkit_uniffi cb taskData status).run w
                = Except.error e
              ↔ (cb taskData status).run w = Except.error e)
    ∧ ((cgo_rust_task_callback_bridge_radix_engine_toolkit_uniffi rejectingCallback
          0 ⟨-128, by decide⟩).run 7) = Except.error (-128)
    ∧ ((cgo_rust_task_callback_bridge_radix_engine_toolkit_uniffi rejectingCallback
          0x1234 ⟨127, by decide⟩).run 7) = Except.ok ((), 0x1234) :=
  ⟨fun _ _ _ _ _ _ => ⟨rfl, fun _ => Iff.rfl⟩, rfl, rfl⟩

/-- C5: the bridge performs no deduplication.  For every callback cb (traced, over any
world), token and status, two successive calls of the bridge with the same triple invoke cb
exactly twice, each time with (taskData, status): the call log grows by exactly these two
entries, and the world is the one cb leaves when run twice. -/
theorem bridge_twice_invokes_callback_twice {W : Type} (cb : RustTaskCallback (StateM W))
    (taskData : VoidPtr) (status : int8_t) (w : W) (log : Log) :
    (forwardTwice (traced cb) taskData status).run (w, log)
      = ((), ((cb taskData status).run ((cb taskData status).run w).2).2,
          log ++ [(taskData, status), (taskData, status)])
    ∧ ((forwardTwice (traced cb) taskData status).run (w, log)).2.2.length
        = log.length + 2 := by
  have h : (forwardTwice (traced cb) taskData status).run (w, log)
      = ((), ((cb taskData status).run ((cb taskData status).run w).2).2,
          log ++ [(taskData, status), (taskData, status)]) := by
    simp [forwardTwice, bind, StateT.bind, StateT.run,
      cgo_rust_task_callback_bridge_radix_engine_toolkit_uniffi, traced]
  refine ⟨h, ?_⟩
  rw [h]
  simp

/-- C7: the bridge is reentrant.  For every inner callback cb2, every (t1, s1) and (t2, s2),
and an outer callback that, when invoked, calls the bridge with (cb2, t2, s2) between two
arbitrary effects of its own, one call of the bridge with the outer callback and (t1, s1)
invokes the outer callback exactly once with (t1, s1) and cb2 exactly once with (t2, s2);
the outer callback still holds (t1, s1) after the nested call returns. -/
theorem bridge_reentrant {W : Type} (before after cb2 : RustTaskCallback (StateM W))
    (t1 t2 : VoidPtr) (s1 s2 : int8_t) (st : NestedState W) :
    (cgo_rust_task_callback_bridge_radix_engine_toolkit_uniffi
        (reentrantCallback before after (tracedInner cb2) t2 s2) t1 s1).run st
      = ((), { world := ((after t1 s1).run
                  ((cb2 t2 s2).run ((before t1 s1).run st.world).2).2).2
               outerLog := st.outerLog ++ [(t1, s1)]
               innerLog := st.innerLog ++ [(t2, s2)] }) :=
  rfl

/-- C8: the bridge never interprets or dereferences the task token.  For every callback cb
whose effect does not depend on its token argument, every status, every initial state and
every two tokens t1 and t2, the bridge called with t1 and the bridge called with t2 end in
the same state. -/
theorem bridge_token_opaque {W : Type} (cb : RustTaskCallback (StateM W))
    (hcb : ∀ (t t2 : VoidPtr) (status : int8_t) (w : W),
      (cb t status).run w = (cb t2 status).run w)
    (t1 t2 : VoidPtr) (status : int8_t) (w : W) :
    (cgo_rust_task_callback_bridge_radix_engine_toolkit_uniffi cb t1 status).run w
      = (cgo_rust_task_callback_bridge_radix_engine_toolkit_uniffi cb t2 status).run w :=
  hcb t1 t2 status w

/-- Witness for C8 at the status counter, the tokens 0 and 0x1234, status -1 and initial
state 5: both calls end in state 4. -/
theorem bridge_token_opaque_witness :
    (∀ (t t2 : VoidPtr) (status : int8_t) (w : Int),
        (statusCounter t status).run w = (statusCounter t2 status).run w)
    ∧ (cgo_rust_task_callback_bridge_radix_engine_toolkit_uniffi statusCounter
          0 ⟨-1, by decide⟩).run 5
        = (cgo_rust_task_callback_bridge_radix_engine_toolkit_uniffi statusCounter
          0x1234 ⟨-1, by decide⟩).run 5
    ∧ ((cgo_rust_task_callback_bridge_radix_engine_toolkit_uniffi statusCounter
          0x1234 ⟨-1, by decide⟩).run 5).2 = 4 :=
  ⟨fun _ _ _ _ => rfl,
   bridge_token_opaque statusCounter (fun _ _ _ _ => rfl) 0 0x1234 ⟨-1, by decide⟩ 5,
   by decide⟩

end RadixEngineToolkitUniffi
